import Mathlib

/-!
Shallow embedding of `ansible_base/authenticator_plugins/saml.py`:
the SAML authenticator plugin's configuration validation
(`SAMLConfiguration.validate`), the flat/nested configuration
normalizer (`SAMLConfiguration.to_internal_value` /
`SAMLConfiguration.to_representation`), the plugin-level callback-URL
logic (`AuthenticatorPlugin.validate`) and the metadata HTTP endpoint
(`SAMLMetadataView.get`).

Python dictionaries are modelled as association lists of
`String × Val` where `Val` covers the value shapes the code
manipulates: strings, `None`, and nested dictionaries.  Python
exceptions escaping a function are modelled with `Option` / `Except`.
-/

namespace SamlSpec

/-- A Python value as handled by the SAML configuration code:
a string, `None`, or a nested dictionary. -/
inductive Val where
  | vstr (s : String)
  | vnone
  | vdict (entries : List (String × Val))

/-- A Python dict, modelled as an association list with unique keys. -/
abbrev Dict := List (String × Val)

mutual

def Val.decEq : (a b : Val) → Decidable (a = b)
  | Val.vstr a, Val.vstr b =>
      match String.decEq a b with
      | isTrue h => isTrue (by rw [h])
      | isFalse h => isFalse (fun hh => h (Val.vstr.injEq a b ▸ hh))
  | Val.vstr _, Val.vnone => isFalse (fun h => nomatch h)
  | Val.vstr _, Val.vdict _ => isFalse (fun h => nomatch h)
  | Val.vnone, Val.vstr _ => isFalse (fun h => nomatch h)
  | Val.vnone, Val.vnone => isTrue rfl
  | Val.vnone, Val.vdict _ => isFalse (fun h => nomatch h)
  | Val.vdict _, Val.vstr _ => isFalse (fun h => nomatch h)
  | Val.vdict _, Val.vnone => isFalse (fun h => nomatch h)
  | Val.vdict a, Val.vdict b =>
      match Val.entriesDecEq a b with
      | isTrue h => isTrue (by rw [h])
      | isFalse h => isFalse (fun hh => h (Val.vdict.injEq a b ▸ hh))

def Val.entriesDecEq : (a b : List (String × Val)) → Decidable (a = b)
  | [], [] => isTrue rfl
  | [], _ :: _ => isFalse (fun h => nomatch h)
  | _ :: _, [] => isFalse (fun h => nomatch h)
  | (k, v) :: r, (k', v') :: r' =>
      match String.decEq k k', Val.decEq v v', Val.entriesDecEq r r' with
      | isTrue h1, isTrue h2, isTrue h3 => isTrue (by rw [h1, h2, h3])
      | isFalse h1, _, _ =>
          isFalse (fun hh => h1 (congrArg (fun l => (l.headD (k, v)).1) hh))
      | _, isFalse h2, _ =>
          isFalse (fun hh => h2 (congrArg (fun l => (l.headD (k, v)).2) hh))
      | _, _, isFalse h3 =>
          isFalse (fun hh => h3 (congrArg List.tail hh))

end

instance : DecidableEq Val := Val.decEq

/-- Lookup: `lookup d k` is Python `d[k]` as an `Option`: the value at the first
entry whose key is `k`, or `none` when `k` is absent (`k in d` is
`(lookup d k).isSome`). -/
def lookup : Dict → String → Option Val
  | [], _ => none
  | (k', v) :: rest, k => if k' = k then some v else lookup rest k

/-- Python `d.get(k, dflt)`. -/
def dget (d : Dict) (k : String) (dflt : Val) : Val :=
  (lookup d k).getD dflt

/-- Python `d[k] = v`: replace the value at the existing entry for `k`
(keeping its position), or append a new entry at the end. -/
def dset : Dict → String → Val → Dict
  | [], k, v => [(k, v)]
  | (k', v') :: rest, k, v =>
      if k' = k then (k, v) :: rest else (k', v') :: dset rest k v

/-- Python `del d[k]` (on a dict with unique keys): drop the entry for `k`. -/
def derase : Dict → String → Dict
  | [], _ => []
  | (k', v') :: rest, k =>
      if k' = k then derase rest k else (k', v') :: derase rest k

/-- Python truthiness for the values we model: a string is truthy iff
non-empty, `None` is falsy, a dict is truthy iff non-empty. -/
def truthy : Val → Bool
  | Val.vstr s => s != ""
  | Val.vnone => false
  | Val.vdict d => !d.isEmpty

@[simp] theorem lookup_nil (k : String) : lookup [] k = none := rfl

theorem lookup_cons (k' k : String) (v : Val) (rest : Dict) :
    lookup ((k', v) :: rest) k = if k' = k then some v else lookup rest k := rfl

@[simp] theorem lookup_cons_self (k : String) (v : Val) (rest : Dict) :
    lookup ((k, v) :: rest) k = some v := by
  simp [lookup]

theorem lookup_cons_ne (k' k : String) (v : Val) (rest : Dict) (h : k' ≠ k) :
    lookup ((k', v) :: rest) k = lookup rest k := by
  simp [lookup, h]

@[simp] theorem lookup_dset_self (d : Dict) (k : String) (v : Val) :
    lookup (dset d k v) k = some v := by
  induction d with
  | nil => simp [dset, lookup]
  | cons p rest ih =>
      obtain ⟨k', v'⟩ := p
      by_cases h : k' = k
      · simp [dset, h, lookup]
      · simp [dset, h, lookup, ih]

@[simp] theorem lookup_dset_ne (d : Dict) (k k₂ : String) (v : Val) (h : k₂ ≠ k) :
    lookup (dset d k v) k₂ = lookup d k₂ := by
  induction d with
  | nil => simp [dset, lookup, Ne.symm h]
  | cons p rest ih =>
      obtain ⟨k', v'⟩ := p
      by_cases h' : k' = k
      · subst h'
        simp [dset, lookup, Ne.symm h]
      · simp [dset, h', lookup, ih]

@[simp] theorem lookup_derase_self (d : Dict) (k : String) :
    lookup (derase d k) k = none := by
  induction d with
  | nil => simp [derase]
  | cons p rest ih =>
      obtain ⟨k', v'⟩ := p
      by_cases h : k' = k
      · simp [derase, h, ih]
      · simp [derase, h, lookup, ih]

@[simp] theorem lookup_derase_ne (d : Dict) (k k₂ : String) (h : k₂ ≠ k) :
    lookup (derase d k) k₂ = lookup d k₂ := by
  induction d with
  | nil => simp [derase]
  | cons p rest ih =>
      obtain ⟨k', v'⟩ := p
      by_cases h' : k' = k
      · subst h'
        simp [derase, lookup, Ne.symm h, ih]
      · simp [derase, h', lookup, ih]

/-- The fixed IdP label (`idp_string = 'IdP'` in the source). -/
def idp_string : String := "IdP"

/-- Modelled from the spec: the sentinel value, imported from
`ansible_base.utils.encryption` (not under `src/`), that an update
passes for an encrypted field to mean "value unchanged"; the validator
must resolve it to the previously stored plaintext. -/
def ENCRYPTED_STRING : String := "$encrypted$"

/-- The flat-setting to IdP-field name mapping
(`SAMLConfiguration.settings_to_enabled_idps_fields`), in source order. -/
def settings_to_enabled_idps_fields : List (String × String) :=
  [("IDP_URL", "url"),
   ("IDP_X509_CERT", "x509cert"),
   ("IDP_ENTITY_ID", "entity_id"),
   ("IDP_ATTR_EMAIL", "attr_email"),
   ("IDP_GROUPS", "attr_groups"),
   ("IDP_ATTR_USERNAME", "attr_username"),
   ("IDP_ATTR_LAST_NAME", "attr_last_name"),
   ("IDP_ATTR_FIRST_NAME", "attr_first_name"),
   ("IDP_ATTR_USER_PERMANENT_ID", "attr_user_permanent_id")]

/-- The `cert_info` computation at the start of
`SAMLConfiguration.validate` (saml.py lines 133-143): the effective
(public cert, private key) pair handed to `validate_cert_with_key`.
`instanceConfig` is `self.instance.configuration` when an instance
exists (`getattr(self.instance, 'configuration', {})` yields `{}`
otherwise).  The private key from `attrs` overrides the stored one only
when it is truthy and differs from the `ENCRYPTED_STRING` sentinel. -/
def cert_info (instanceConfig : Option Dict) (attrs : Dict) : Val × Val :=
  let instCfg := instanceConfig.getD []
  let cert := dget instCfg "SP_PUBLIC_CERT" (dget attrs "SP_PUBLIC_CERT" Val.vnone)
  let storedKey := dget instCfg "SP_PRIVATE_KEY" Val.vnone
  let privateKey := dget attrs "SP_PRIVATE_KEY" Val.vnone
  let key :=
    if truthy privateKey ∧ privateKey ≠ Val.vstr ENCRYPTED_STRING then privateKey
    else storedKey
  (cert, key)

/-- Outcome of `SAMLConfiguration.validate`: either the attrs returned
unchanged, or a raised `serializers.ValidationError` carrying the
field-name-to-message mapping. -/
inductive ValidateResult where
  | ok (attrs : Dict)
  | err (errors : Dict)
deriving DecidableEq

/-- The message recorded under `IDP_ATTR_USERNAME` when neither identity
attribute is set. -/
def idp_attr_error : String :=
  "Either IDP_ATTR_USERNAME or IDP_ATTR_USER_PERMANENT_ID needs to be set"

/-- Embeds `SAMLConfiguration.validate` (saml.py lines 129-166).
`checkPair cert key` models `validate_cert_with_key` (an imported
utility, not under `src/`): `some msg` when it raises a
`ValidationError` with message `msg`, `none` when the pair validates.
`super().validate(attrs)` (DRF's default) returns `attrs` unchanged.
The result is `none` when the Python code would crash with an
`AttributeError`, i.e. when `attrs['ENABLED_IDPS']` or its `'IdP'`
entry exists but is not a dict. -/
def SAMLConfiguration.validate (checkPair : Val → Val → Option String)
    (instanceConfig : Option Dict) (attrs : Dict) : Option ValidateResult :=
  let info := cert_info instanceConfig attrs
  let certErrors : Dict :=
    match checkPair info.1 info.2 with
    | some msg => [("SP_PRIVATE_KEY", Val.vstr msg)]
    | none => []
  match dget attrs "ENABLED_IDPS" (Val.vdict []) with
  | Val.vdict enabledIdps =>
    match dget enabledIdps idp_string (Val.vdict []) with
    | Val.vdict idpData =>
      let errors :=
        if !truthy (dget idpData "attr_user_permanent_id" Val.vnone)
            && !truthy (dget idpData "attr_username" Val.vnone) then
          certErrors ++ [("IDP_ATTR_USERNAME", Val.vstr idp_attr_error)]
        else certErrors
      some (if errors.isEmpty then ValidateResult.ok attrs else ValidateResult.err errors)
    | _ => none
  | _ => none

/-- The error recorded under field `k` by a validate outcome, if any. -/
def errorFor (r : Option ValidateResult) (k : String) : Option Val :=
  match r with
  | some (ValidateResult.err errors) => lookup errors k
  | _ => none

/-- Embeds `SAMLConfiguration.to_internal_value` (saml.py lines 168-176): move
each present mapped flat key into the single IdP entry under its mapped
name, delete the flat key, then store the one-entry IdP registry under
`ENABLED_IDPS`.  `super().to_internal_value(data)` is modelled from the
spec as the identity on the dict (BaseAuthenticatorConfiguration is not
under `src/`; the spec states that keys pass through unchanged). -/
def SAMLConfiguration.to_internal_value (data : Dict) : Dict :=
  let step :=
    settings_to_enabled_idps_fields.foldl
      (fun (acc : Dict × Dict) p =>
        match lookup acc.1 p.1 with
        | some v => (derase acc.1 p.1, dset acc.2 p.2 v)
        | none => acc)
      (data, [])
  dset step.1 "ENABLED_IDPS" (Val.vdict [(idp_string, Val.vdict step.2)])

/-- A Python exception escaping `to_representation`. -/
inductive PyErr where
  | keyError (k : String)
  | typeError
deriving DecidableEq, Repr

/-- Embeds `SAMLConfiguration.to_representation` (saml.py lines 178-185): when
`ENABLED_IDPS` is present, surface each mapped IdP field found in
`configuration['ENABLED_IDPS'][idp_string]` under its flat key, then
drop `ENABLED_IDPS`.  The indexing `configuration['ENABLED_IDPS']
[idp_string]` raises `KeyError` when the `'IdP'` entry is missing, and a
`TypeError` when the `ENABLED_IDPS` value or its `'IdP'` entry is not a
dict. -/
def SAMLConfiguration.to_representation (configuration : Dict) :
    Except PyErr Dict :=
  match lookup configuration "ENABLED_IDPS" with
  | none => Except.ok configuration
  | some (Val.vdict enabledIdps) =>
    match lookup enabledIdps idp_string with
    | none => Except.error (PyErr.keyError idp_string)
    | some (Val.vdict idpData) =>
      let cfg :=
        settings_to_enabled_idps_fields.foldl
          (fun (cfg : Dict) p =>
            match lookup idpData p.2 with
            | some v => dset cfg p.1 v
            | none => cfg)
          configuration
      Except.ok (derase cfg "ENABLED_IDPS")
    | some _ => Except.error PyErr.typeError
  | some _ => Except.error PyErr.typeError

/-- Embeds `AuthenticatorPlugin.validate` (saml.py lines 202-216).
`genSlug ty name` models `generate_authenticator_slug(data['type'],
data['name'])` and `reverseComplete slug` models
`reverse('social:complete', ..., kwargs={'backend': slug})`, both
imported collaborators.  `instanceSlug` is `serializer.instance.slug`
when an instance exists.  `none` models a Python `KeyError` /
`AttributeError` (no `'configuration'` on create, configuration not a
dict, or `'type'`/`'name'` missing when generating a slug). -/
def AuthenticatorPlugin.validate (genSlug : Val → Val → String)
    (reverseComplete : String → String) (instanceSlug : Option String)
    (data : Dict) : Option Dict :=
  if instanceSlug.isSome ∧ lookup data "configuration" = none then some data
  else
    match lookup data "configuration" with
    | some (Val.vdict configuration) =>
      if truthy (dget configuration "CALLBACK_URL" Val.vnone) then some data
      else
        match instanceSlug with
        | some slug =>
            some (dset data "configuration"
              (Val.vdict (dset configuration "CALLBACK_URL"
                (Val.vstr (reverseComplete slug)))))
        | none =>
            match lookup data "type", lookup data "name" with
            | some ty, some name =>
                some (dset data "configuration"
                  (Val.vdict (dset configuration "CALLBACK_URL"
                    (Val.vstr (reverseComplete (genSlug ty name))))))
            | _, _ => none
    | some _ => none
    | none => none

/-- An HTTP response as produced by `SAMLMetadataView.get`:
`HttpResponseNotFound()` has status 404 and an empty body;
`HttpResponse(content=..., content_type=...)` has status 200. -/
structure HttpResp where
  status : Nat
  content : String
  contentType : String
deriving DecidableEq, Repr

/-- Outcome of `saml_backend.generate_metadata_xml()`: either a normal
return of the `(metadata, errors)` tuple, or a raised
`OneLogin_Saml2_Error` whose message is `msg`. -/
inductive GenResult where
  | ok (metadata : String) (errors : List String)
  | raised (msg : String)
deriving DecidableEq, Repr

/-- What one call of `SAMLMetadataView.get` did: the HTTP response,
whether the protocol engine (metadata generation) was invoked, and the
messages logged at debug severity. -/
structure GetTrace where
  response : HttpResp
  engineCalled : Bool
  debugLogs : List String
deriving DecidableEq, Repr

/-- Models Django rendering `HttpResponse(content=errors)` when `errors`
is the (non-empty) error list returned by metadata generation: the
response body is a string rendering of that list. -/
def strOfErrors (errors : List String) : String :=
  "[" ++ String.intercalate ", " errors ++ "]"

/-- Embeds `SAMLMetadataView.get` (saml.py lines 220-237).  `pluginType` is the
`type` of the plugin resolved for the stored authenticator, `authId` the
authenticator's id, and `gen` the outcome the backend's
`generate_metadata_xml()` would produce if called.  When the plugin type
is not `'SAML'` the handler logs at debug severity and returns
`HttpResponseNotFound()` without touching the backend; otherwise it
returns the metadata as `text/xml` when there are no errors, and the
error text as `text/plain` (status 200) when generation reported errors
or raised. -/
def SAMLMetadataView.get (pluginType : String) (authId : Nat)
    (gen : GenResult) : GetTrace :=
  if pluginType ≠ "SAML" then
    { response := { status := 404, content := "", contentType := "" }
      engineCalled := false
      debugLogs := ["Authenticator " ++ toString authId ++
        " has a type which does not support metadata " ++ pluginType] }
  else
    match gen with
    | GenResult.ok metadata errors =>
      if errors.isEmpty then
        { response := { status := 200, content := metadata, contentType := "text/xml" }
          engineCalled := true
          debugLogs := [] }
      else
        { response := { status := 200, content := strOfErrors errors, contentType := "text/plain" }
          engineCalled := true
          debugLogs := [] }
    | GenResult.raised msg =>
      { response := { status := 200, content := msg, contentType := "text/plain" }
        engineCalled := true
        debugLogs := [] }

/-- C7: for every metadata request addressed to a stored authenticator
whose resolved plugin kind is not SAML, the handler returns a
"not found" (404) response with an empty body, logs the type mismatch
at debug severity, and never invokes the metadata-generation engine. -/
theorem C7_metadata_non_saml (pluginType : String) (authId : Nat)
    (gen : GenResult) (h : pluginType ≠ "SAML") :
    SAMLMetadataView.get pluginType authId gen =
      { response := { status := 404, content := "", contentType := "" }
        engineCalled := false
        debugLogs := ["Authenticator " ++ toString authId ++
          " has a type which does not support metadata " ++ pluginType] } := by
  simp [SAMLMetadataView.get, h]

/-- Witness for C7 at a concrete non-SAML authenticator. -/
theorem C7_metadata_non_saml_witness :
    SAMLMetadataView.get "local" 5 (GenResult.ok "doc" []) =
      { response := { status := 404, content := "", contentType := "" }
        engineCalled := false
        debugLogs :=
          ["Authenticator 5 has a type which does not support metadata local"] } := by
  rw [C7_metadata_non_saml "local" 5 (GenResult.ok "doc" []) (by decide)]
  decide

/-- C8: for every metadata request to a SAML-kind authenticator the
handler returns the generated document with an XML content type when
generation reports no errors, and otherwise returns the error text
(including the message of an underlying generation exception) with a
plain-text content type on HTTP status 200 — generation failure never
fails the HTTP transaction. -/
theorem C8_metadata_saml (authId : Nat) :
    (∀ metadata, SAMLMetadataView.get "SAML" authId (GenResult.ok metadata []) =
      { response := { status := 200, content := metadata, contentType := "text/xml" }
        engineCalled := true
        debugLogs := [] }) ∧
    (∀ metadata errors, errors ≠ [] →
      SAMLMetadataView.get "SAML" authId (GenResult.ok metadata errors) =
        { response := { status := 200
                        content := strOfErrors errors
                        contentType := "text/plain" }
          engineCalled := true
          debugLogs := [] }) ∧
    (∀ msg, SAMLMetadataView.get "SAML" authId (GenResult.raised msg) =
      { response := { status := 200, content := msg, contentType := "text/plain" }
        engineCalled := true
        debugLogs := [] }) := by
  refine ⟨fun metadata => ?_, fun metadata errors herr => ?_, fun msg => ?_⟩
  · simp [SAMLMetadataView.get]
  · cases errors with
    | nil => exact absurd rfl herr
    | cons e es => simp [SAMLMetadataView.get, List.isEmpty]
  · simp [SAMLMetadataView.get]

/-- Witness for C8 at a concrete SAML authenticator whose generation
raised an exception. -/
theorem C8_metadata_saml_witness :
    SAMLMetadataView.get "SAML" 1 (GenResult.ok "x" ["bad cert"]) =
      { response := { status := 200
                      content := strOfErrors ["bad cert"]
                      contentType := "text/plain" }
        engineCalled := true
        debugLogs := [] } :=
  (C8_metadata_saml 1).2.1 "x" ["bad cert"] (by decide)

/-- C9: the result of `to_internal_value` always contains an
`ENABLED_IDPS` key mapping exactly the single label `'IdP'` to the
collected IdP fields, and when none of the nine mapped flat keys is
present the `'IdP'` entry is the empty dict. -/
theorem C9_single_idp_entry (data : Dict) :
    (∃ idpData, lookup (SAMLConfiguration.to_internal_value data) "ENABLED_IDPS" =
      some (Val.vdict [(idp_string, Val.vdict idpData)])) ∧
    ((∀ p ∈ settings_to_enabled_idps_fields, lookup data p.1 = none) →
      lookup (SAMLConfiguration.to_internal_value data) "ENABLED_IDPS" =
        some (Val.vdict [(idp_string, Val.vdict [])])) := by
  constructor
  · exact ⟨_, lookup_dset_self _ _ _⟩
  · intro h
    have h1 := h ("IDP_URL", "url") (by decide)
    have h2 := h ("IDP_X509_CERT", "x509cert") (by decide)
    have h3 := h ("IDP_ENTITY_ID", "entity_id") (by decide)
    have h4 := h ("IDP_ATTR_EMAIL", "attr_email") (by decide)
    have h5 := h ("IDP_GROUPS", "attr_groups") (by decide)
    have h6 := h ("IDP_ATTR_USERNAME", "attr_username") (by decide)
    have h7 := h ("IDP_ATTR_LAST_NAME", "attr_last_name") (by decide)
    have h8 := h ("IDP_ATTR_FIRST_NAME", "attr_first_name") (by decide)
    have h9 := h ("IDP_ATTR_USER_PERMANENT_ID", "attr_user_permanent_id") (by decide)
    simp [SAMLConfiguration.to_internal_value, settings_to_enabled_idps_fields,
      List.foldl, h1, h2, h3, h4, h5, h6, h7, h8, h9]

/-- Witness for C9 at a concrete input with none of the nine flat keys. -/
theorem C9_single_idp_entry_witness :
    lookup (SAMLConfiguration.to_internal_value [("SP_ENTITY_ID", Val.vstr "sp")])
        "ENABLED_IDPS" =
      some (Val.vdict [(idp_string, Val.vdict [])]) :=
  (C9_single_idp_entry [("SP_ENTITY_ID", Val.vstr "sp")]).2 (by decide)

/-- C10: `to_representation` is total only under the invariant that an
`ENABLED_IDPS` entry contains the `'IdP'` label: with `ENABLED_IDPS`
present but the `'IdP'` entry missing it fails with a key-lookup error,
while with the `'IdP'` entry present (as a dict) it returns a
representation. -/
theorem C10_representation_requires_idp (configuration enabledIdps : Dict)
    (h1 : lookup configuration "ENABLED_IDPS" = some (Val.vdict enabledIdps)) :
    (lookup enabledIdps idp_string = none →
      SAMLConfiguration.to_representation configuration =
        Except.error (PyErr.keyError idp_string)) ∧
    (∀ idpData, lookup enabledIdps idp_string = some (Val.vdict idpData) →
      ∃ out, SAMLConfiguration.to_representation configuration = Except.ok out) := by
  constructor
  · intro h2
    simp [SAMLConfiguration.to_representation, h1, h2]
  · intro idpData h2
    refine ⟨derase
      (List.foldl
        (fun cfg p =>
          match lookup idpData p.2 with
          | some v => dset cfg p.1 v
          | none => cfg)
        configuration settings_to_enabled_idps_fields)
      "ENABLED_IDPS", ?_⟩
    simp [SAMLConfiguration.to_representation, h1, h2]

/-- Witness for C10 at a concrete configuration whose `ENABLED_IDPS`
map lacks the `'IdP'` entry. -/
theorem C10_representation_requires_idp_witness :
    SAMLConfiguration.to_representation
        [("ENABLED_IDPS", Val.vdict [("Other", Val.vdict [])])] =
      Except.error (PyErr.keyError idp_string) :=
  (C10_representation_requires_idp
      [("ENABLED_IDPS", Val.vdict [("Other", Val.vdict [])])]
      [("Other", Val.vdict [])] (by decide)).1 (by decide)

/-- The round-trip property of the configuration normalizer for a flat
configuration `data` carrying the nine mapped flat keys with values
`v1..v9`: `to_internal_value data` contains none of the nine flat keys,
and `to_representation (to_internal_value data)` succeeds and
reproduces each of the nine values exactly. -/
def RoundTrip (data : Dict) (v1 v2 v3 v4 v5 v6 v7 v8 v9 : Val) : Prop :=
  (lookup (SAMLConfiguration.to_internal_value data) "IDP_URL" = none ∧
   lookup (SAMLConfiguration.to_internal_value data) "IDP_X509_CERT" = none ∧
   lookup (SAMLConfiguration.to_internal_value data) "IDP_ENTITY_ID" = none ∧
   lookup (SAMLConfiguration.to_internal_value data) "IDP_ATTR_EMAIL" = none ∧
   lookup (SAMLConfiguration.to_internal_value data) "IDP_GROUPS" = none ∧
   lookup (SAMLConfiguration.to_internal_value data) "IDP_ATTR_USERNAME" = none ∧
   lookup (SAMLConfiguration.to_internal_value data) "IDP_ATTR_LAST_NAME" = none ∧
   lookup (SAMLConfiguration.to_internal_value data) "IDP_ATTR_FIRST_NAME" = none ∧
   lookup (SAMLConfiguration.to_internal_value data) "IDP_ATTR_USER_PERMANENT_ID" = none) ∧
  ((SAMLConfiguration.to_representation (SAMLConfiguration.to_internal_value data)).map
      (fun out => lookup out "IDP_URL") = Except.ok (some v1) ∧
   (SAMLConfiguration.to_representation (SAMLConfiguration.to_internal_value data)).map
      (fun out => lookup out "IDP_X509_CERT") = Except.ok (some v2) ∧
   (SAMLConfiguration.to_representation (SAMLConfiguration.to_internal_value data)).map
      (fun out => lookup out "IDP_ENTITY_ID") = Except.ok (some v3) ∧
   (SAMLConfiguration.to_representation (SAMLConfiguration.to_internal_value data)).map
      (fun out => lookup out "IDP_ATTR_EMAIL") = Except.ok (some v4) ∧
   (SAMLConfiguration.to_representation (SAMLConfiguration.to_internal_value data)).map
      (fun out => lookup out "IDP_GROUPS") = Except.ok (some v5) ∧
   (SAMLConfiguration.to_representation (SAMLConfiguration.to_internal_value data)).map
      (fun out => lookup out "IDP_ATTR_USERNAME") = Except.ok (some v6) ∧
   (SAMLConfiguration.to_representation (SAMLConfiguration.to_internal_value data)).map
      (fun out => lookup out "IDP_ATTR_LAST_NAME") = Except.ok (some v7) ∧
   (SAMLConfiguration.to_representation (SAMLConfiguration.to_internal_value data)).map
      (fun out => lookup out "IDP_ATTR_FIRST_NAME") = Except.ok (some v8) ∧
   (SAMLConfiguration.to_representation (SAMLConfiguration.to_internal_value data)).map
      (fun out => lookup out "IDP_ATTR_USER_PERMANENT_ID") = Except.ok (some v9))

/-- Helper: the fully computed shape of `to_internal_value` on a flat
configuration carrying all nine mapped flat keys. -/
theorem to_internal_value_all_present (data : Dict) (v1 v2 v3 v4 v5 v6 v7 v8 v9 : Val)
    (h1 : lookup data "IDP_URL" = some v1)
    (h2 : lookup data "IDP_X509_CERT" = some v2)
    (h3 : lookup data "IDP_ENTITY_ID" = some v3)
    (h4 : lookup data "IDP_ATTR_EMAIL" = some v4)
    (h5 : lookup data "IDP_GROUPS" = some v5)
    (h6 : lookup data "IDP_ATTR_USERNAME" = some v6)
    (h7 : lookup data "IDP_ATTR_LAST_NAME" = some v7)
    (h8 : lookup data "IDP_ATTR_FIRST_NAME" = some v8)
    (h9 : lookup data "IDP_ATTR_USER_PERMANENT_ID" = some v9) :
    SAMLConfiguration.to_internal_value data =
      dset
        (derase (derase (derase (derase (derase (derase (derase (derase
          (derase data "IDP_URL") "IDP_X509_CERT") "IDP_ENTITY_ID")
          "IDP_ATTR_EMAIL") "IDP_GROUPS") "IDP_ATTR_USERNAME")
          "IDP_ATTR_LAST_NAME") "IDP_ATTR_FIRST_NAME") "IDP_ATTR_USER_PERMANENT_ID")
        "ENABLED_IDPS"
        (Val.vdict [(idp_string, Val.vdict
          [("url", v1), ("x509cert", v2), ("entity_id", v3), ("attr_email", v4),
           ("attr_groups", v5), ("attr_username", v6), ("attr_last_name", v7),
           ("attr_first_name", v8), ("attr_user_permanent_id", v9)])]) := by
  simp [SAMLConfiguration.to_internal_value, settings_to_enabled_idps_fields,
    List.foldl, dset, h1, h2, h3, h4, h5, h6, h7, h8, h9]

/-- Helper: the fully computed shape of `to_representation` on a
configuration whose `ENABLED_IDPS` entry is the canonical single-IdP
registry produced by `to_internal_value`. -/
theorem to_representation_canonical (X : Dict) (v1 v2 v3 v4 v5 v6 v7 v8 v9 : Val) :
    SAMLConfiguration.to_representation
        (dset X "ENABLED_IDPS" (Val.vdict [(idp_string, Val.vdict
          [("url", v1), ("x509cert", v2), ("entity_id", v3), ("attr_email", v4),
           ("attr_groups", v5), ("attr_username", v6), ("attr_last_name", v7),
           ("attr_first_name", v8), ("attr_user_permanent_id", v9)])])) =
      Except.ok (derase
        (dset (dset (dset (dset (dset (dset (dset (dset (dset
          (dset X "ENABLED_IDPS" (Val.vdict [(idp_string, Val.vdict
            [("url", v1), ("x509cert", v2), ("entity_id", v3), ("attr_email", v4),
             ("attr_groups", v5), ("attr_username", v6), ("attr_last_name", v7),
             ("attr_first_name", v8), ("attr_user_permanent_id", v9)])]))
          "IDP_URL" v1) "IDP_X509_CERT" v2) "IDP_ENTITY_ID" v3) "IDP_ATTR_EMAIL" v4)
          "IDP_GROUPS" v5) "IDP_ATTR_USERNAME" v6) "IDP_ATTR_LAST_NAME" v7)
          "IDP_ATTR_FIRST_NAME" v8) "IDP_ATTR_USER_PERMANENT_ID" v9)
        "ENABLED_IDPS") := by
  simp [SAMLConfiguration.to_representation, settings_to_enabled_idps_fields,
    List.foldl, lookup, idp_string]

/-- C5: for any flat configuration containing all nine mapped flat keys,
applying `to_internal_value` then `to_representation` reproduces the
values of those nine keys exactly, and `to_internal_value` leaves none
of the nine flat keys in its result. -/
theorem C5_roundtrip (data : Dict) (v1 v2 v3 v4 v5 v6 v7 v8 v9 : Val)
    (h1 : lookup data "IDP_URL" = some v1)
    (h2 : lookup data "IDP_X509_CERT" = some v2)
    (h3 : lookup data "IDP_ENTITY_ID" = some v3)
    (h4 : lookup data "IDP_ATTR_EMAIL" = some v4)
    (h5 : lookup data "IDP_GROUPS" = some v5)
    (h6 : lookup data "IDP_ATTR_USERNAME" = some v6)
    (h7 : lookup data "IDP_ATTR_LAST_NAME" = some v7)
    (h8 : lookup data "IDP_ATTR_FIRST_NAME" = some v8)
    (h9 : lookup data "IDP_ATTR_USER_PERMANENT_ID" = some v9) :
    RoundTrip data v1 v2 v3 v4 v5 v6 v7 v8 v9 := by
  unfold RoundTrip
  rw [to_internal_value_all_present data v1 v2 v3 v4 v5 v6 v7 v8 v9
    h1 h2 h3 h4 h5 h6 h7 h8 h9]
  rw [to_representation_canonical]
  simp [Except.map]

/-- Witness for C5 at a concrete flat configuration carrying all nine
mapped flat keys plus an unrelated key. -/
theorem C5_roundtrip_witness :
    RoundTrip
      [("SP_ENTITY_ID", Val.vstr "sp"),
       ("IDP_URL", Val.vstr "https://idp.example.com/login"),
       ("IDP_X509_CERT", Val.vstr "idpcert"),
       ("IDP_ENTITY_ID", Val.vstr "idp-entity"),
       ("IDP_ATTR_EMAIL", Val.vstr "mail"),
       ("IDP_GROUPS", Val.vstr "groups"),
       ("IDP_ATTR_USERNAME", Val.vstr "uid"),
       ("IDP_ATTR_LAST_NAME", Val.vstr "last"),
       ("IDP_ATTR_FIRST_NAME", Val.vstr "first"),
       ("IDP_ATTR_USER_PERMANENT_ID", Val.vstr "pid")]
      (Val.vstr "https://idp.example.com/login") (Val.vstr "idpcert")
      (Val.vstr "idp-entity") (Val.vstr "mail") (Val.vstr "groups")
      (Val.vstr "uid") (Val.vstr "last") (Val.vstr "first") (Val.vstr "pid") :=
  C5_roundtrip _ _ _ _ _ _ _ _ _ _
    (by decide) (by decide) (by decide) (by decide) (by decide)
    (by decide) (by decide) (by decide) (by decide)

/-- Helper: under a well-formed `ENABLED_IDPS` entry, the error recorded
by `SAMLConfiguration.validate` under `SP_PRIVATE_KEY` is exactly the
outcome of the cert/key check applied to the effective `cert_info`
pair. -/
theorem validate_spkey_error (checkPair : Val → Val → Option String)
    (instanceConfig : Option Dict) (attrs enabledIdps idpData : Dict)
    (h1 : dget attrs "ENABLED_IDPS" (Val.vdict []) = Val.vdict enabledIdps)
    (h2 : dget enabledIdps idp_string (Val.vdict []) = Val.vdict idpData) :
    errorFor (SAMLConfiguration.validate checkPair instanceConfig attrs)
        "SP_PRIVATE_KEY" =
      Option.map Val.vstr
        (checkPair (cert_info instanceConfig attrs).1
          (cert_info instanceConfig attrs).2) := by
  cases hcp : checkPair (cert_info instanceConfig attrs).1
      (cert_info instanceConfig attrs).2 with
  | none =>
      by_cases hmiss : (!truthy (dget idpData "attr_user_permanent_id" Val.vnone)
          && !truthy (dget idpData "attr_username" Val.vnone)) = true
      · simp [SAMLConfiguration.validate, errorFor, h1, h2, hcp, hmiss, lookup]
      · simp [SAMLConfiguration.validate, errorFor, h1, h2, hcp, hmiss]
  | some m =>
      by_cases hmiss : (!truthy (dget idpData "attr_user_permanent_id" Val.vnone)
          && !truthy (dget idpData "attr_username" Val.vnone)) = true
      · simp [SAMLConfiguration.validate, errorFor, h1, h2, hcp, hmiss, lookup]
      · simp [SAMLConfiguration.validate, errorFor, h1, h2, hcp, hmiss, lookup]

/-- C1: on an update whose `SP_PRIVATE_KEY` is absent or equals the
"unchanged" sentinel while an existing instance stores a key, the
effective pair handed to the cert/key check carries the previously
stored private key (so validation is performed against it, not a
missing key), while a truthy non-sentinel key supplied in the update
overrides the stored one. -/
theorem C1_private_key_fallback (instanceConfig : Dict) (k : String)
    (hstored : lookup instanceConfig "SP_PRIVATE_KEY" = some (Val.vstr k)) :
    (∀ attrs, (lookup attrs "SP_PRIVATE_KEY" = none ∨
        lookup attrs "SP_PRIVATE_KEY" = some (Val.vstr ENCRYPTED_STRING)) →
      (cert_info (some instanceConfig) attrs).2 = Val.vstr k) ∧
    (∀ attrs enabledIdps idpData checkPair,
      (lookup attrs "SP_PRIVATE_KEY" = none ∨
        lookup attrs "SP_PRIVATE_KEY" = some (Val.vstr ENCRYPTED_STRING)) →
      dget attrs "ENABLED_IDPS" (Val.vdict []) = Val.vdict enabledIdps →
      dget enabledIdps idp_string (Val.vdict []) = Val.vdict idpData →
      errorFor (SAMLConfiguration.validate checkPair (some instanceConfig) attrs)
          "SP_PRIVATE_KEY" =
        Option.map Val.vstr
          (checkPair (cert_info (some instanceConfig) attrs).1 (Val.vstr k))) ∧
    (∀ attrs s, s ≠ "" → s ≠ ENCRYPTED_STRING →
      lookup attrs "SP_PRIVATE_KEY" = some (Val.vstr s) →
      (cert_info (some instanceConfig) attrs).2 = Val.vstr s) := by
  have keyEq : ∀ attrs, (lookup attrs "SP_PRIVATE_KEY" = none ∨
      lookup attrs "SP_PRIVATE_KEY" = some (Val.vstr ENCRYPTED_STRING)) →
      (cert_info (some instanceConfig) attrs).2 = Val.vstr k := by
    intro attrs h
    rcases h with h | h <;> simp [cert_info, dget, h, hstored, truthy]
  refine ⟨keyEq, ?_, ?_⟩
  · intro attrs enabledIdps idpData checkPair h h1 h2
    rw [validate_spkey_error checkPair (some instanceConfig) attrs
      enabledIdps idpData h1 h2, keyEq attrs h]
  · intro attrs s hs hsenc hl
    simp [cert_info, dget, hl, truthy, hs, hsenc]

/-- Witness for C1 at a concrete instance and a sentinel-carrying
update. -/
theorem C1_private_key_fallback_witness :
    (cert_info
        (some [("SP_PRIVATE_KEY", Val.vstr "priv"),
               ("SP_PUBLIC_CERT", Val.vstr "cert")])
        [("SP_PRIVATE_KEY", Val.vstr ENCRYPTED_STRING)]).2 = Val.vstr "priv" :=
  (C1_private_key_fallback
      [("SP_PRIVATE_KEY", Val.vstr "priv"), ("SP_PUBLIC_CERT", Val.vstr "cert")]
      "priv" (by decide)).1
    [("SP_PRIVATE_KEY", Val.vstr ENCRYPTED_STRING)] (Or.inr (by decide))

/-- C2 counterexample: a configuration update that supplies a fresh
`SP_PUBLIC_CERT` while the instance already stores one is validated
against the stored certificate, not the supplied one — a pair checker
that accepts exactly the supplied certificate still yields a
`SP_PRIVATE_KEY` error. -/
theorem C2_counterexample_stored_cert_wins :
    (cert_info
        (some [("SP_PUBLIC_CERT", Val.vstr "stored cert"),
               ("SP_PRIVATE_KEY", Val.vstr "stored key")])
        [("SP_PUBLIC_CERT", Val.vstr "new cert"),
         ("SP_PRIVATE_KEY", Val.vstr "new key")]).1 = Val.vstr "stored cert" ∧
    SAMLConfiguration.validate
        (fun c _ => if c = Val.vstr "new cert" then none else some "mismatch")
        (some [("SP_PUBLIC_CERT", Val.vstr "stored cert"),
               ("SP_PRIVATE_KEY", Val.vstr "stored key")])
        [("SP_PUBLIC_CERT", Val.vstr "new cert"),
         ("SP_PRIVATE_KEY", Val.vstr "new key"),
         ("ENABLED_IDPS", Val.vdict [(idp_string, Val.vdict
            [("attr_username", Val.vstr "uid")])])] =
      some (ValidateResult.err [("SP_PRIVATE_KEY", Val.vstr "mismatch")]) := by
  decide

/-- C2 amended: the cert/key pair check uses the instance's stored
`SP_PUBLIC_CERT` whenever the instance has one (a supplied certificate
is ignored then), and falls back to the certificate supplied in the
update only when no stored certificate exists (in particular on
creation); the pair actually checked is always the effective
`cert_info` pair. -/
theorem C2_amended_stored_cert_precedence (attrs : Dict) :
    (∀ instanceConfig c, lookup instanceConfig "SP_PUBLIC_CERT" = some c →
      (cert_info (some instanceConfig) attrs).1 = c) ∧
    (∀ instanceConfig, lookup instanceConfig "SP_PUBLIC_CERT" = none →
      (cert_info (some instanceConfig) attrs).1 =
        dget attrs "SP_PUBLIC_CERT" Val.vnone) ∧
    (cert_info none attrs).1 = dget attrs "SP_PUBLIC_CERT" Val.vnone ∧
    (∀ checkPair instanceConfig enabledIdps idpData,
      dget attrs "ENABLED_IDPS" (Val.vdict []) = Val.vdict enabledIdps →
      dget enabledIdps idp_string (Val.vdict []) = Val.vdict idpData →
      errorFor (SAMLConfiguration.validate checkPair instanceConfig attrs)
          "SP_PRIVATE_KEY" =
        Option.map Val.vstr
          (checkPair (cert_info instanceConfig attrs).1
            (cert_info instanceConfig attrs).2)) := by
  refine ⟨?_, ?_, ?_, ?_⟩
  · intro instanceConfig c h
    simp [cert_info, dget, h]
  · intro instanceConfig h
    simp [cert_info, dget, h]
  · simp [cert_info, dget]
  · intro checkPair instanceConfig enabledIdps idpData h1 h2
    exact validate_spkey_error checkPair instanceConfig attrs enabledIdps idpData h1 h2

/-- Witness for the amended C2 at a concrete stored certificate and a
different supplied one. -/
theorem C2_amended_stored_cert_precedence_witness :
    (cert_info (some [("SP_PUBLIC_CERT", Val.vstr "old")])
        [("SP_PUBLIC_CERT", Val.vstr "new")]).1 = Val.vstr "old" :=
  (C2_amended_stored_cert_precedence [("SP_PUBLIC_CERT", Val.vstr "new")]).1
    [("SP_PUBLIC_CERT", Val.vstr "old")] (Val.vstr "old") (by decide)

/-- C3: `SAMLConfiguration.validate` collects the cert/key-pair error
(keyed `SP_PRIVATE_KEY`) and the identity-attribute error (keyed
`IDP_ATTR_USERNAME`) without short-circuiting, and raises a single
aggregate error exactly when at least one check fails: the four
exhaustive cases fully determine the outcome, and when both checks fail
both keys appear in the raised mapping. -/
theorem C3_error_aggregation (checkPair : Val → Val → Option String)
    (instanceConfig : Option Dict) (attrs enabledIdps idpData : Dict)
    (h1 : dget attrs "ENABLED_IDPS" (Val.vdict []) = Val.vdict enabledIdps)
    (h2 : dget enabledIdps idp_string (Val.vdict []) = Val.vdict idpData) :
    (checkPair (cert_info instanceConfig attrs).1 (cert_info instanceConfig attrs).2 = none →
      (!truthy (dget idpData "attr_user_permanent_id" Val.vnone)
        && !truthy (dget idpData "attr_username" Val.vnone)) = false →
      SAMLConfiguration.validate checkPair instanceConfig attrs =
        some (ValidateResult.ok attrs)) ∧
    (∀ m, checkPair (cert_info instanceConfig attrs).1 (cert_info instanceConfig attrs).2 = some m →
      (!truthy (dget idpData "attr_user_permanent_id" Val.vnone)
        && !truthy (dget idpData "attr_username" Val.vnone)) = false →
      SAMLConfiguration.validate checkPair instanceConfig attrs =
        some (ValidateResult.err [("SP_PRIVATE_KEY", Val.vstr m)])) ∧
    (checkPair (cert_info instanceConfig attrs).1 (cert_info instanceConfig attrs).2 = none →
      (!truthy (dget idpData "attr_user_permanent_id" Val.vnone)
        && !truthy (dget idpData "attr_username" Val.vnone)) = true →
      SAMLConfiguration.validate checkPair instanceConfig attrs =
        some (ValidateResult.err
          [("IDP_ATTR_USERNAME", Val.vstr idp_attr_error)])) ∧
    (∀ m, checkPair (cert_info instanceConfig attrs).1 (cert_info instanceConfig attrs).2 = some m →
      (!truthy (dget idpData "attr_user_permanent_id" Val.vnone)
        && !truthy (dget idpData "attr_username" Val.vnone)) = true →
      SAMLConfiguration.validate checkPair instanceConfig attrs =
        some (ValidateResult.err
          [("SP_PRIVATE_KEY", Val.vstr m),
           ("IDP_ATTR_USERNAME", Val.vstr idp_attr_error)])) := by
  refine ⟨?_, ?_, ?_, ?_⟩
  · intro hcp hmiss
    simp [SAMLConfiguration.validate, h1, h2, hcp, hmiss]
  · intro m hcp hmiss
    simp [SAMLConfiguration.validate, h1, h2, hcp, hmiss]
  · intro hcp hmiss
    simp [SAMLConfiguration.validate, h1, h2, hcp, hmiss]
  · intro m hcp hmiss
    simp [SAMLConfiguration.validate, h1, h2, hcp, hmiss]

/-- Witness for C3 at a concrete input on which both checks fail: both
keys appear in the raised aggregate. -/
theorem C3_error_aggregation_witness :
    SAMLConfiguration.validate (fun _ _ => some "bad pair") none
        [("ENABLED_IDPS", Val.vdict [(idp_string, Val.vdict [])])] =
      some (ValidateResult.err
        [("SP_PRIVATE_KEY", Val.vstr "bad pair"),
         ("IDP_ATTR_USERNAME", Val.vstr idp_attr_error)]) :=
  (C3_error_aggregation (fun _ _ => some "bad pair") none
      [("ENABLED_IDPS", Val.vdict [(idp_string, Val.vdict [])])]
      [(idp_string, Val.vdict [])] [] (by decide) (by decide)).2.2.2
    "bad pair" (by decide) (by decide)

/-- C4: when the single IdP entry sets neither `attr_username` nor
`attr_user_permanent_id`, validation fails with an error keyed
`IDP_ATTR_USERNAME` (the only entry when the cert/key pair is valid);
when at least one of the two is set, no such error is recorded, and
with a valid pair validation succeeds outright. -/
theorem C4_identity_attr_requirement (checkPair : Val → Val → Option String)
    (instanceConfig : Option Dict) (attrs enabledIdps idpData : Dict)
    (h1 : dget attrs "ENABLED_IDPS" (Val.vdict []) = Val.vdict enabledIdps)
    (h2 : dget enabledIdps idp_string (Val.vdict []) = Val.vdict idpData) :
    (truthy (dget idpData "attr_user_permanent_id" Val.vnone) = false →
      truthy (dget idpData "attr_username" Val.vnone) = false →
      errorFor (SAMLConfiguration.validate checkPair instanceConfig attrs)
          "IDP_ATTR_USERNAME" = some (Val.vstr idp_attr_error)) ∧
    ((truthy (dget idpData "attr_user_permanent_id" Val.vnone) = true ∨
      truthy (dget idpData "attr_username" Val.vnone) = true) →
      errorFor (SAMLConfiguration.validate checkPair instanceConfig attrs)
          "IDP_ATTR_USERNAME" = none) ∧
    (truthy (dget idpData "attr_user_permanent_id" Val.vnone) = false →
      truthy (dget idpData "attr_username" Val.vnone) = false →
      checkPair (cert_info instanceConfig attrs).1 (cert_info instanceConfig attrs).2 = none →
      SAMLConfiguration.validate checkPair instanceConfig attrs =
        some (ValidateResult.err
          [("IDP_ATTR_USERNAME", Val.vstr idp_attr_error)])) ∧
    ((truthy (dget idpData "attr_user_permanent_id" Val.vnone) = true ∨
      truthy (dget idpData "attr_username" Val.vnone) = true) →
      checkPair (cert_info instanceConfig attrs).1 (cert_info instanceConfig attrs).2 = none →
      SAMLConfiguration.validate checkPair instanceConfig attrs =
        some (ValidateResult.ok attrs)) := by
  refine ⟨?_, ?_, ?_, ?_⟩
  · intro hp hu
    cases hcp : checkPair (cert_info instanceConfig attrs).1
        (cert_info instanceConfig attrs).2 with
    | none => simp [SAMLConfiguration.validate, errorFor, h1, h2, hcp, hp, hu, lookup]
    | some m => simp [SAMLConfiguration.validate, errorFor, h1, h2, hcp, hp, hu, lookup]
  · intro hone
    have hmiss : (!truthy (dget idpData "attr_user_permanent_id" Val.vnone)
        && !truthy (dget idpData "attr_username" Val.vnone)) = false := by
      rcases hone with hone | hone <;> simp [hone]
    cases hcp : checkPair (cert_info instanceConfig attrs).1
        (cert_info instanceConfig attrs).2 with
    | none => simp [SAMLConfiguration.validate, errorFor, h1, h2, hcp, hmiss]
    | some m => simp [SAMLConfiguration.validate, errorFor, h1, h2, hcp, hmiss, lookup]
  · intro hp hu hcp
    simp [SAMLConfiguration.validate, h1, h2, hcp, hp, hu]
  · intro hone hcp
    have hmiss : (!truthy (dget idpData "attr_user_permanent_id" Val.vnone)
        && !truthy (dget idpData "attr_username" Val.vnone)) = false := by
      rcases hone with hone | hone <;> simp [hone]
    simp [SAMLConfiguration.validate, h1, h2, hcp, hmiss]

/-- Witness for C4 at a concrete candidate whose IdP entry sets neither
identity attribute, with a valid cert/key pair: exactly one error,
keyed `IDP_ATTR_USERNAME`. -/
theorem C4_identity_attr_requirement_witness :
    SAMLConfiguration.validate (fun _ _ => none) none
        [("ENABLED_IDPS", Val.vdict [(idp_string, Val.vdict
          [("attr_email", Val.vstr "mail")])])] =
      some (ValidateResult.err
        [("IDP_ATTR_USERNAME", Val.vstr idp_attr_error)]) :=
  (C4_identity_attr_requirement (fun _ _ => none) none
      [("ENABLED_IDPS", Val.vdict [(idp_string, Val.vdict
        [("attr_email", Val.vstr "mail")])])]
      [(idp_string, Val.vdict [("attr_email", Val.vstr "mail")])]
      [("attr_email", Val.vstr "mail")] (by decide) (by decide)).2.2.1
    (by decide) (by decide) (by decide)

/-- C6: `AuthenticatorPlugin.validate` computes and stores
`CALLBACK_URL` (from the existing instance's slug on update, or a newly
generated slug on creation) only when the candidate configuration has
no truthy `CALLBACK_URL`; a caller-supplied `CALLBACK_URL` is left
unchanged, and an update carrying no `configuration` key at all returns
the data entirely unmodified. -/
theorem C6_callback_url (genSlug : Val → Val → String)
    (reverseComplete : String → String) (data : Dict) :
    (∀ slug, lookup data "configuration" = none →
      AuthenticatorPlugin.validate genSlug reverseComplete (some slug) data =
        some data) ∧
    (∀ instanceSlug configuration,
      lookup data "configuration" = some (Val.vdict configuration) →
      truthy (dget configuration "CALLBACK_URL" Val.vnone) = true →
      AuthenticatorPlugin.validate genSlug reverseComplete instanceSlug data =
        some data) ∧
    (∀ slug configuration,
      lookup data "configuration" = some (Val.vdict configuration) →
      truthy (dget configuration "CALLBACK_URL" Val.vnone) = false →
      AuthenticatorPlugin.validate genSlug reverseComplete (some slug) data =
        some (dset data "configuration" (Val.vdict (dset configuration
          "CALLBACK_URL" (Val.vstr (reverseComplete slug)))))) ∧
    (∀ configuration ty name,
      lookup data "configuration" = some (Val.vdict configuration) →
      truthy (dget configuration "CALLBACK_URL" Val.vnone) = false →
      lookup data "type" = some ty → lookup data "name" = some name →
      AuthenticatorPlugin.validate genSlug reverseComplete none data =
        some (dset data "configuration" (Val.vdict (dset configuration
          "CALLBACK_URL" (Val.vstr (reverseComplete (genSlug ty name))))))) := by
  refine ⟨?_, ?_, ?_, ?_⟩
  · intro slug h
    simp [AuthenticatorPlugin.validate, h]
  · intro instanceSlug configuration h hcb
    simp [AuthenticatorPlugin.validate, h, hcb]
  · intro slug configuration h hcb
    simp [AuthenticatorPlugin.validate, h, hcb]
  · intro configuration ty name h hcb hty hname
    simp [AuthenticatorPlugin.validate, h, hcb, hty, hname]

/-- Witness for C6 at a concrete update whose configuration lacks a
callback URL: the URL derived from the instance slug is stored. -/
theorem C6_callback_url_witness :
    AuthenticatorPlugin.validate (fun _ _ => "generated")
        (fun s => "/sso/complete/" ++ s) (some "saml-auth")
        [("configuration", Val.vdict [("SP_ENTITY_ID", Val.vstr "sp")])] =
      some (dset [("configuration", Val.vdict [("SP_ENTITY_ID", Val.vstr "sp")])]
        "configuration" (Val.vdict (dset [("SP_ENTITY_ID", Val.vstr "sp")]
          "CALLBACK_URL" (Val.vstr ("/sso/complete/" ++ "saml-auth"))))) :=
  (C6_callback_url (fun _ _ => "generated") (fun s => "/sso/complete/" ++ s)
      [("configuration", Val.vdict [("SP_ENTITY_ID", Val.vstr "sp")])]).2.2.1
    "saml-auth" [("SP_ENTITY_ID", Val.vstr "sp")] (by decide) (by decide)

end SamlSpec
